import Mathlib

/-
Verification development for the social-media-ad-generator repository.

The Python sources are shallowly embedded as executable Lean definitions:

* `models/types.py`  -> the enumerations and record structures below;
* `tools/ad_generator.py` (`_generate_ads_internal`, `_generate_single_ad`)
  -> `generateAdsInternal` / `generateSingleAd`, with wall-clock time
  modelled as natural-number instants supplied by the environment: each
  per-variation run carries its start and end instant, and the batch carries
  the fan-out start and fan-in end instants;
* `agent.py` (sessions) -> `SessionRecord` and the stage-gated operations
  `startSession`, `uploadImage`, `submitAnswers`, `generateAds`,
  `getSessionStatus`;
* `chat_agent.py` (conversations) -> `ConvRecord`, the per-turn handlers, the
  background-generation reconciliation, and a small-step transition relation
  `ConvStep` with its reachability predicate `ConvReachable`.

External collaborators (image analyzer, response classifier, the Gemini
image call, file I/O) are modelled as oracle parameters: every call site
takes the collaborator's outcome (`Except` for calls that can raise) as an
explicit argument, exactly where the Python code awaits the collaborator.

Floating-point quantities are embedded as naturals: elapsed times are
modelled in abstract time units, and the analyzer image-quality score in
[0, 1] is carried as a scaled percentage (`score > 0.8` becomes
`pct > 80`); both only feed message prose and comparisons, never arithmetic
that would distinguish the representations.  Python datetimes are abstract
`Nat` instants.  Message strings reproduce the source texts (apostrophes
written with the \x27 escape); float formatting such as `:.1f` is rendered
with `toString` on the natural value, which affects display text only.
-/

namespace SMAG

/-- Product categories from `models/types.py` (`class ProductCategory(str, Enum)`). -/
inductive ProductCategory where
  | fashion
  | electronics
  | food_beverage
  | home_garden
  | beauty_personal_care
  | sports_outdoors
  | automotive
  | books_media
  | toys_games
  | services
  | other
deriving DecidableEq, Repr

/-- The bare enum value of a `ProductCategory` member.  In Python the class is a
`str`-mixin enum, so a member *is* a string whose content is this bare value:
string equality and dict-key lookup on a member behave exactly like the bare
value (the qualified name "ProductCategory.FASHION" only ever appears through
`str()`/`repr()`, which the lookups never call). -/
def ProductCategory.value : ProductCategory → String
  | .fashion => "fashion"
  | .electronics => "electronics"
  | .food_beverage => "food_beverage"
  | .home_garden => "home_garden"
  | .beauty_personal_care => "beauty_personal_care"
  | .sports_outdoors => "sports_outdoors"
  | .automotive => "automotive"
  | .books_media => "books_media"
  | .toys_games => "toys_games"
  | .services => "services"
  | .other => "other"

/-- Brand tone options from `models/types.py`. -/
inductive BrandTone where
  | professional
  | playful
  | luxury
  | minimalist
  | bold
  | friendly
  | sophisticated
deriving DecidableEq, Repr

/-- Embedding of `BrandTone(value)`: the Python enum constructor, raising `ValueError` on an
unknown value. -/
def BrandTone.ofString (v : String) : Except String BrandTone :=
  if v = "professional" then .ok .professional
  else if v = "playful" then .ok .playful
  else if v = "luxury" then .ok .luxury
  else if v = "minimalist" then .ok .minimalist
  else if v = "bold" then .ok .bold
  else if v = "friendly" then .ok .friendly
  else if v = "sophisticated" then .ok .sophisticated
  else .error ("\x27" ++ v ++ "\x27 is not a valid BrandTone")

/-- The four fixed ad variation kinds from `models/types.py`. -/
inductive AdVariationType where
  | lifestyle
  | product_hero
  | benefit_focused
  | social_proof
deriving DecidableEq, Repr

/-- Bare enum value of an `AdVariationType` member. -/
def AdVariationType.value : AdVariationType → String
  | .lifestyle => "lifestyle"
  | .product_hero => "product_hero"
  | .benefit_focused => "benefit_focused"
  | .social_proof => "social_proof"

/-- Embedding of `GeneratedAd` from `models/types.py`; `generation_time_seconds` in abstract
time units, and the optional `quality_score` (always `None` in the generator)
is dropped. -/
structure GeneratedAd where
  variation_type : AdVariationType
  image_url : String
  prompt_used : String
  generation_time_seconds : Nat
deriving DecidableEq, Repr

/-- Embedding of `AdGenerationResult` from `models/types.py`. -/
structure AdGenerationResult where
  request_id : String
  ads : List GeneratedAd
  total_generation_time_seconds : Nat
  success : Bool
  error_message : Option String
deriving DecidableEq, Repr

/-- The outcome of one `_generate_single_ad` task as observed by the fan-in in
`_generate_ads_internal`: either a completed ad generation carrying its start
and end instants together with the image URL and final prompt, or the raised
exception's message. -/
inductive VariationOutcome where
  | ok (startTime endTime : Nat) (imageUrl promptUsed : String)
  | err (message : String)
deriving DecidableEq, Repr

/-- Whether a variation task produced an ad (as opposed to raising). -/
def VariationOutcome.isOk : VariationOutcome → Bool
  | .ok _ _ _ _ => true
  | .err _ => false

/-- The fixed four-variation catalogue built in `_generate_ads_internal`. -/
def adVariations : List AdVariationType :=
  [.lifestyle, .product_hero, .benefit_focused, .social_proof]

/-- Embedding of `_generate_single_ad` as seen at the fan-in: a successful run of variation
`v` yields a `GeneratedAd` whose elapsed time is its end minus start instant
(`time.time() - start_time` in the source); a raising run yields nothing and
is filtered out by the caller. -/
def generateSingleAd (v : AdVariationType) : VariationOutcome → Option GeneratedAd
  | .ok s e url prompt =>
      some { variation_type := v, image_url := url, prompt_used := prompt,
             generation_time_seconds := e - s }
  | .err _ => none

/-- Embedding of `_generate_ads_internal`: fan out the four variations, keep the successful
ones (exceptions are logged and excluded in both the concurrent and the
sequential mode), and report success exactly when at least one ad was
produced, with the fixed aggregate error message otherwise.  `batchStart` and
`batchEnd` are the wall-clock instants around the fan-out/fan-in. -/
def generateAdsInternal (requestId : String) (batchStart batchEnd : Nat)
    (runs : List VariationOutcome) : AdGenerationResult :=
  let validAds := (adVariations.zip runs).filterMap fun p => generateSingleAd p.1 p.2
  { request_id := requestId
    ads := validAds
    total_generation_time_seconds := batchEnd - batchStart
    success := decide (validAds.length > 0)
    error_message := if validAds.length > 0 then none else some "Failed to generate any ads" }

/-- Embedding of `AdGenerator.generate_ads`: wraps `_generate_ads_internal` and raises when
the tool output carries no generation result (dead in practice, since the
internal call always returns a result). -/
def adGeneratorGenerateAds (requestId : String) (batchStart batchEnd : Nat)
    (runs : List VariationOutcome) : Except String AdGenerationResult :=
  match some (generateAdsInternal requestId batchStart batchEnd runs) with
  | none => .error "Ad generation failed to produce a result"
  | some r => .ok r

/-- Embedding of `ImageAnalysis` from `models/types.py`.  The float `image_quality_score` in
[0, 1] is carried as a scaled percentage (only compared against 0.8, embedded
as 80). -/
structure ImageAnalysis where
  category : ProductCategory
  dominant_colors : List String
  product_features : List String
  background_type : String
  image_quality_score_pct : Nat
  suggested_questions : List String
deriving DecidableEq, Repr

/-- The structured fields the response classifier
(`QuestionEngine.process_response`) may attach to an answer, restricted to the
keys the agent's extraction loop in `generate_ads` reads
(`target_audience`, `brand_tone`, `key_message`); a key is absent when the
option is `none`. -/
structure ProcessedFields where
  target_audience : Option String
  brand_tone : Option String
  key_message : Option String
deriving DecidableEq, Repr

/-- Embedding of `UserResponse` from `models/types.py`. -/
structure UserResponse where
  question_id : String
  question_text : String
  response : String
  processed_response : Option ProcessedFields
deriving DecidableEq, Repr

/-- Session stages used by `agent.py`: "upload", "questions", "generation",
"completed". -/
inductive SessionStage where
  | upload
  | questions
  | generation
  | completed
deriving DecidableEq, Repr

/-- One record of `SocialMediaAdAgent.sessions`, as initialised by
`start_session` and mutated by the stage-gated operations.  `created_at` is an
abstract instant; `questions` keeps the question texts produced by the
question engine. -/
structure SessionRecord where
  created_at : Nat
  stage : SessionStage
  image_analysis : Option ImageAnalysis
  product_image_path : Option String
  questions : List String
  responses : List UserResponse
  generation_result : Option AdGenerationResult
deriving DecidableEq, Repr

/-- The session map `self.sessions`. -/
def SessionStore : Type := String → Option SessionRecord

/-- Point update of the session map (`self.sessions[session_id] = ...`). -/
def SessionStore.insert (store : SessionStore) (sessionId : String)
    (s : SessionRecord) : SessionStore :=
  fun k => if k = sessionId then some s else store k

/-- The fresh record installed by `start_session`. -/
def freshSession (createdAt : Nat) : SessionRecord :=
  { created_at := createdAt
    stage := .upload
    image_analysis := none
    product_image_path := none
    questions := []
    responses := []
    generation_result := none }

/-- Embedding of `start_session`: unconditionally installs a fresh record under the
identifier (caller-supplied here; when the caller passes none, Python draws a
fresh UUID, which is the same assignment at a fresh key) and returns the
identifier. -/
def startSession (store : SessionStore) (sessionId : String) (createdAt : Nat) :
    SessionStore × String :=
  (store.insert sessionId (freshSession createdAt), sessionId)

/-- The dict the session operations return on their non-raising paths
(`{"success": ..., "error"/..., "next_stage": ...}`), restricted to the keys
the callers read.  `result` carries the `"result"` payload of `generate_ads`
and `analysis` the `"analysis"` payload of `upload_image`. -/
structure AgentResponse where
  success : Bool
  error : Option String := none
  next_stage : Option String := none
  result : Option AdGenerationResult := none
  analysis : Option ImageAnalysis := none
deriving DecidableEq, Repr

/-- Embedding of `upload_image`: gate on existence and on stage "upload" (a violation
raises, embedded as `Except.error`, before any mutation); then call the image
analyzer (outcome `analyzer`), and on its success store the analysis and path
and advance to "questions" before asking the question engine for questions
(outcome `questionGen`).  A raising collaborator is caught and reported as a
`success := false` envelope. -/
def uploadImage (store : SessionStore) (sessionId : String) (imagePath : String)
    (analyzer : Except String ImageAnalysis)
    (questionGen : Except String (List String)) :
    SessionStore × Except String AgentResponse :=
  match store sessionId with
  | none => (store, .error ("Session " ++ sessionId ++ " not found"))
  | some s =>
    if s.stage ≠ SessionStage.upload then
      (store, .error ("Session " ++ sessionId ++ " is not in upload stage"))
    else
      match analyzer with
      | .error e => (store, .ok { success := false, error := some e })
      | .ok a =>
        let s₁ := { s with image_analysis := some a, product_image_path := some imagePath,
                           stage := SessionStage.questions }
        match questionGen with
        | .error e => (store.insert sessionId s₁, .ok { success := false, error := some e })
        | .ok qs =>
          (store.insert sessionId { s₁ with questions := qs },
           .ok { success := true, analysis := some a, next_stage := some "questions" })

/-- The `submit_answers` processing loop: classify each answer in order
(`classify` is the response classifier oracle), attaching the structured
fields; the first raising classification aborts the loop with that error and
the session is only mutated after the whole loop succeeded. -/
def processAnswers (classify : UserResponse → Except String ProcessedFields) :
    List UserResponse → Except String (List UserResponse)
  | [] => .ok []
  | a :: rest =>
    match classify a with
    | .error e => .error e
    | .ok p =>
      match processAnswers classify rest with
      | .error e => .error e
      | .ok rs => .ok ({ a with processed_response := some p } :: rs)

/-- Embedding of `submit_answers`: gate on existence and on stage "questions" (violation
raises before any mutation); then run the processing loop and, only on full
success, store the responses and advance to "generation". -/
def submitAnswers (store : SessionStore) (sessionId : String)
    (answers : List UserResponse)
    (classify : UserResponse → Except String ProcessedFields) :
    SessionStore × Except String AgentResponse :=
  match store sessionId with
  | none => (store, .error ("Session " ++ sessionId ++ " not found"))
  | some s =>
    if s.stage ≠ SessionStage.questions then
      (store, .error ("Session " ++ sessionId ++ " is not in questions stage"))
    else
      match processAnswers classify answers with
      | .error e => (store, .ok { success := false, error := some e })
      | .ok rs =>
        (store.insert sessionId { s with responses := rs, stage := SessionStage.generation },
         .ok { success := true, next_stage := some "generation" })

/-- The extraction loop at the top of `generate_ads`: walk the stored
responses, overwriting target audience, brand tone and key message with any
structured fields present; converting an invalid brand-tone value raises
(caught by the surrounding `try`). -/
def extractRequestFields :
    List UserResponse → String → BrandTone → String →
    Except String (String × BrandTone × String)
  | [], ta, bt, km => .ok (ta, bt, km)
  | r :: rest, ta, bt, km =>
    match r.processed_response with
    | none => extractRequestFields rest ta bt km
    | some p =>
      let ta' := p.target_audience.getD ta
      match p.brand_tone with
      | none => extractRequestFields rest ta' bt (p.key_message.getD km)
      | some v =>
        match BrandTone.ofString v with
        | .error e => .error e
        | .ok bt' => extractRequestFields rest ta' bt' (p.key_message.getD km)

/-- Embedding of `generate_ads` (session level): gate on existence, stage "generation" and
the defensive presence check for analysis and responses (each violation
raises, embedded as `Except.error`, before any mutation); then extract the
request fields and delegate to the ad-generation fan-out, whose outcome is
the oracle `batch` (`Except.error` for a raising call).  On a returned batch
result the session stores it and advances to "completed" with a
`success := true` envelope — regardless of the batch's own `success` flag;
a raising step inside the `try` yields a `success := false` envelope without
mutation. -/
def generateAds (store : SessionStore) (sessionId : String)
    (batch : Except String AdGenerationResult) :
    SessionStore × Except String AgentResponse :=
  match store sessionId with
  | none => (store, .error ("Session " ++ sessionId ++ " not found"))
  | some s =>
    if s.stage ≠ SessionStage.generation then
      (store, .error ("Session " ++ sessionId ++ " is not in generation stage"))
    else if s.image_analysis = none ∨ s.responses = [] then
      (store, .error "Missing image analysis or responses")
    else
      match extractRequestFields s.responses "" BrandTone.professional "" with
      | .error e => (store, .ok { success := false, error := some e })
      | .ok _ =>
        match batch with
        | .error e => (store, .ok { success := false, error := some e })
        | .ok r =>
          (store.insert sessionId
             { s with generation_result := some r, stage := SessionStage.completed },
           .ok { success := true, result := some r, next_stage := some "completed" })

/-- The read-only snapshot returned by `get_session_status`. -/
structure SessionStatus where
  session_id : String
  stage : SessionStage
  created_at : Nat
  has_analysis : Bool
  questions_count : Nat
  responses_count : Nat
  generation_complete : Bool
deriving DecidableEq, Repr

/-- Embedding of `get_session_status`: raises on an unknown identifier, otherwise builds the
descriptor from the record; the store is threaded through to make the absence
of mutation statable. -/
def getSessionStatus (store : SessionStore) (sessionId : String) :
    SessionStore × Except String SessionStatus :=
  match store sessionId with
  | none => (store, .error ("Session " ++ sessionId ++ " not found"))
  | some s =>
    (store,
     .ok { session_id := sessionId
           stage := s.stage
           created_at := s.created_at
           has_analysis := s.image_analysis.isSome
           questions_count := s.questions.length
           responses_count := s.responses.length
           generation_complete := s.generation_result.isSome })

/-- Conversation stages used by `chat_agent.py`. -/
inductive ConvStage where
  | greeting
  | waiting_for_image
  | analyzing_image
  | asking_questions
  | ready_for_generation
  | generating
  | completed
  | generation_failed
deriving DecidableEq, Repr

/-- The `current_question` descriptor stored on the conversation. -/
structure CurrentQuestion where
  qtype : String
  question : String
  category_context : String
deriving DecidableEq, Repr

/-- Embedding of `collected_info` with its `additional_context` sub-dict flattened into the
three keys the handlers write (`demographics`, `tone_keywords`,
`call_to_action`). -/
structure CollectedInfo where
  target_audience : Option String
  brand_tone : Option String
  key_message : Option String
  demographics : Option String
  tone_keywords : Option (List String)
  call_to_action : Option String
deriving DecidableEq, Repr

/-- One entry of `conversation_history` (role and text; the display timestamp
is not modelled). -/
structure HistoryEntry where
  role : String
  message : String
deriving DecidableEq, Repr

/-- The conversation-level snapshot of an image analysis
(`conv["image_analysis"] = result["analysis"]`, a `model_dump`).  Its
`category` is a string whose content is the bare enum value (see
`ProductCategory.value`): the `str`-mixin enum member behaves as that bare
string for every equality and dict lookup the handlers perform.  Only the
fields the handlers read are kept. -/
structure AnalysisDump where
  category : String
  dominant_colors : List String
  image_quality_score_pct : Nat
deriving DecidableEq, Repr

/-- The `model_dump` of a session-level analysis as seen by the conversation
layer. -/
def ImageAnalysis.dump (a : ImageAnalysis) : AnalysisDump :=
  { category := a.category.value
    dominant_colors := a.dominant_colors
    image_quality_score_pct := a.image_quality_score_pct }

/-- One record of `ConversationalAdAgent.conversations`.  `bgPending` is the
explicit model of the `asyncio.create_task` handoff in
`_start_ad_generation`: it is set when the background generation task is
scheduled and cleared when that task resolves (the Python record itself has
no such key; the flag stands for the pending task object). -/
structure ConvRecord where
  id : String
  created_at : Nat
  stage : ConvStage
  session_id : Option String
  image_uploaded : Bool
  image_analysis : Option AnalysisDump
  conversation_history : List HistoryEntry
  collected_info : CollectedInfo
  current_question : Option CurrentQuestion
  questions_asked : Nat
  max_questions : Nat
  ready_for_generation : Bool
  generation_result : Option AdGenerationResult
  generation_error : Option String
  product_image_path : Option String
  bgPending : Bool
deriving DecidableEq, Repr

/-- The conversation map `self.conversations`. -/
def ConvStore : Type := String → Option ConvRecord

/-- Point update of the conversation map. -/
def ConvStore.insert (store : ConvStore) (cid : String) (c : ConvRecord) : ConvStore :=
  fun k => if k = cid then some c else store k

/-- Embedding of `_add_to_history`: append one entry. -/
def addHistory (c : ConvRecord) (role msg : String) : ConvRecord :=
  { c with conversation_history := c.conversation_history ++ [{ role := role, message := msg }] }

/-- The greeting text of `_generate_greeting`. -/
def greetingMessage : String :=
  "Hello! I\x27m your AI Social Media Ad Generator assistant. 🎨\n\n" ++
  "I\x27ll help you create 4 stunning social media advertisements from your product images! " ++
  "These ads will be optimized for Instagram and TikTok Stories (9:16 format).\n\n" ++
  "To get started, please upload a product image, and I\x27ll analyze it and ask you a few " ++
  "smart questions to create the perfect ads for your audience.\n\n" ++
  "What product would you like to create ads for today?"

/-- The message of the blanket `except` handler in `process_message`. -/
def processErrorMessage : String :=
  "I\x27m sorry, I encountered an error processing your message. Could you please try again?"

/-- The response dict a handler returns, restricted to the fields the claims
read (`message`, `stage`, `error`, `generation_started`); presentation-only
fields (`actions`, `examples`, `question_context`, `analysis_summary`, `ads`,
`info_summary`) are not modelled. -/
structure MsgResponse where
  message : String
  stage : ConvStage
  error : Option String := none
  generation_started : Bool := false
deriving DecidableEq, Repr

/-- A conversation operation either returns a bare error dict (the shapes
`{"error": ...}` of the not-found and no-active-question paths) or a full
response dict. -/
inductive ProcessOut where
  | errorOnly (error : String)
  | res (r : MsgResponse)
deriving DecidableEq, Repr

/-- The declared stage of a `ProcessOut`, when it has one. -/
def ProcessOut.stageOf : ProcessOut → Option ConvStage
  | .errorOnly _ => none
  | .res r => some r.stage

/-- The message of a `ProcessOut`, when it has one. -/
def ProcessOut.messageOf : ProcessOut → Option String
  | .errorOnly _ => none
  | .res r => some r.message

/-- The record `start_conversation` installs, after the greeting has been
appended to its history. -/
def initialConv (cid : String) (createdAt : Nat) : ConvRecord :=
  { id := cid
    created_at := createdAt
    stage := .greeting
    session_id := none
    image_uploaded := false
    image_analysis := none
    conversation_history := [{ role := "agent", message := greetingMessage }]
    collected_info :=
      { target_audience := none, brand_tone := none, key_message := none,
        demographics := none, tone_keywords := none, call_to_action := none }
    current_question := none
    questions_asked := 0
    max_questions := 3
    ready_for_generation := false
    generation_result := none
    generation_error := none
    product_image_path := none
    bgPending := false }

/-- Embedding of `start_conversation`: unconditionally installs the fresh record under the
(caller-supplied or freshly drawn) identifier and returns the identifier with
the greeting response, whose declared stage is `waiting_for_image` while the
stored stage is still `greeting`. -/
def startConversation (store : ConvStore) (cid : String) (createdAt : Nat) :
    ConvStore × (String × MsgResponse) :=
  (store.insert cid (initialConv cid createdAt),
   (cid, { message := greetingMessage, stage := .waiting_for_image }))

/-- The `category_messages` table of `_generate_first_question`: keyed by the
qualified enum names, values are the per-category compliments. -/
def categoryMessages : List (String × String) :=
  [("ProductCategory.FASHION",
    "I can see this is a fashion item! It looks stylish with those colors."),
   ("ProductCategory.ELECTRONICS",
    "I can see this is an electronic device! It looks sleek and modern."),
   ("ProductCategory.FOOD_BEVERAGE",
    "I can see this is a food or beverage product! It looks appetizing."),
   ("ProductCategory.BEAUTY_PERSONAL_CARE",
    "I can see this is a beauty product! It looks elegant and premium."),
   ("ProductCategory.HOME_GARDEN",
    "I can see this is a home or garden item! It looks practical and stylish."),
   ("ProductCategory.SPORTS_OUTDOORS",
    "I can see this is sports or outdoor equipment! It looks durable and functional.")]

/-- The `first_questions` table of `_generate_first_question`, keyed by the
qualified enum names. -/
def firstQuestions : List (String × String) :=
  [("ProductCategory.FASHION",
    "Who do you imagine wearing this? Are you targeting young trendsetters, working professionals, or perhaps a different style-conscious group?"),
   ("ProductCategory.ELECTRONICS",
    "Who\x27s your ideal customer for this device? Tech enthusiasts who love the latest gadgets, or everyday users who value reliability and simplicity?"),
   ("ProductCategory.FOOD_BEVERAGE",
    "Who do you see enjoying this? Busy professionals looking for convenience, food lovers seeking premium quality, or health-conscious consumers?"),
   ("ProductCategory.BEAUTY_PERSONAL_CARE",
    "Who\x27s your target customer? People focused on anti-aging, those who love trying new beauty trends, or perhaps those seeking natural/organic solutions?"),
   ("ProductCategory.HOME_GARDEN",
    "Who would be most interested in this? New homeowners setting up their space, design enthusiasts, or practical people looking for functional solutions?"),
   ("ProductCategory.SPORTS_OUTDOORS",
    "Who\x27s your target market? Serious athletes training for performance, weekend warriors staying active, or outdoor adventure enthusiasts?")]

/-- The fallback compliment of `_generate_first_question`. -/
def defaultCategoryMessage : String := "I\x27ve analyzed your product image!"

/-- The fallback first question of `_generate_first_question`. -/
def defaultFirstQuestion : String := "Who is your ideal customer for this product?"

/-- A question/message/tip bundle as returned by `_generate_tone_question` and
`_generate_message_question`. -/
structure QuestionBundle where
  question : String
  message : String
  tip : String
deriving DecidableEq, Repr

/-- The `tone_questions` table of `_generate_tone_question` (keys are the
qualified enum names; values interpolate the collected audience). -/
def toneQuestions (audience : String) : List (String × QuestionBundle) :=
  [("ProductCategory.FASHION",
    { question := "What vibe should your fashion ads have for " ++ audience ++
        "? Should they feel trendy and bold, elegant and sophisticated, or casual and approachable?"
      message := "Great! Now let\x27s talk about the tone and feeling of your ads."
      tip := "The tone should match both your brand personality and what appeals to your target audience." }),
   ("ProductCategory.ELECTRONICS",
    { question := "How should your tech ads feel to " ++ audience ++
        "? Professional and trustworthy, innovative and cutting-edge, or simple and user-friendly?"
      message := "Excellent! Now, what tone should your tech ads convey?"
      tip := "Tech ads can emphasize reliability, innovation, or ease-of-use depending on your audience." }),
   ("ProductCategory.FOOD_BEVERAGE",
    { question := "What mood should your food ads create for " ++ audience ++
        "? Indulgent and premium, healthy and fresh, or cozy and comforting?"
      message := "Perfect! Now let\x27s determine the right mood for your food ads."
      tip := "Food ads work best when they evoke the right emotions and appetite appeal." })]

/-- The fallback bundle of `_generate_tone_question`. -/
def defaultToneBundle (audience : String) : QuestionBundle :=
  { question := "What tone should your ads have for " ++ audience ++
      "? Professional, playful, luxury, or something else?"
    message := "Great! Now let\x27s talk about your brand tone."
    tip := "Your tone should reflect your brand personality and resonate with your target audience." }

/-- Embedding of `_generate_tone_question`: table lookup on the stored category string with
the generic fallback. -/
def toneQuestionFor (category audience : String) : QuestionBundle :=
  (((toneQuestions audience).lookup category).getD (defaultToneBundle audience))

/-- The `message_questions` table of `_generate_message_question`. -/
def messageQuestions (audience : String) : List (String × QuestionBundle) :=
  [("ProductCategory.FASHION",
    { question := "What\x27s the key message you want " ++ audience ++
        " to remember? Is it about style, quality, affordability, or a special offer? What should they do next?"
      message := "Almost done! What\x27s the most important message for your fashion ads?"
      tip := "Include your unique selling point and a clear call-to-action like \x27Shop Now\x27 or \x27Get 20% Off\x27." }),
   ("ProductCategory.ELECTRONICS",
    { question := "What\x27s the main benefit you want " ++ audience ++
        " to know about? Superior performance, latest features, great value, or reliability? What action should they take?"
      message := "Last question! What\x27s the key message for your tech ads?"
      tip := "Focus on the problem you solve or the benefit you provide, with a clear next step." }),
   ("ProductCategory.FOOD_BEVERAGE",
    { question := "What should " ++ audience ++
        " know most about your product? Amazing taste, health benefits, premium ingredients, or special pricing? What\x27s your call-to-action?"
      message := "Final question! What\x27s your main message for these food ads?"
      tip := "Food ads work well with sensory language and urgency like \x27Try Today\x27 or \x27Limited Time\x27." })]

/-- The fallback bundle of `_generate_message_question`. -/
def defaultMessageBundle (audience : String) : QuestionBundle :=
  { question := "What\x27s the most important message for " ++ audience ++
      "? What makes your product special and what should they do next?"
    message := "Final question! What\x27s your key message?"
    tip := "Combine your unique value proposition with a clear call-to-action." }

/-- Embedding of `_generate_message_question`: table lookup with the generic fallback. -/
def messageQuestionFor (category audience : String) : QuestionBundle :=
  (((messageQuestions audience).lookup category).getD (defaultMessageBundle audience))

/-- Whether `needle` occurs at the start of `l`. -/
def startsWithChars : List Char → List Char → Bool
  | [], _ => true
  | _ :: _, [] => false
  | a :: as, b :: bs => if a = b then startsWithChars as bs else false

/-- Whether `needle` occurs anywhere in `l`. -/
def hasSubChars (needle : List Char) : List Char → Bool
  | [] => startsWithChars needle []
  | b :: bs => startsWithChars needle (b :: bs) || hasSubChars needle bs

/-- Python's `needle in s` on strings. -/
def strContains (s needle : String) : Bool :=
  hasSubChars needle.toList s.toList

/-- Python's `str.title()` on a single word (capitalise, lowercase the rest). -/
def capitalizeWord (w : String) : String :=
  match w.toList with
  | [] => ""
  | c :: rest => String.mk (c.toUpper :: rest.map Char.toLower)

/-- Python's `str.title()` for space-separated words. -/
def pythonTitle (s : String) : String :=
  String.intercalate " " ((s.splitOn " ").map capitalizeWord)

/-- Display name of a variation in `_present_results`
(`variation_type.replace("_", " ").title()`). -/
def variationDisplayName (v : AdVariationType) : String :=
  pythonTitle ((v.value).replace "_" " ")

/-- Embedding of `_generate_info_summary`: the confirmation summary built from the collected
info and the analysis snapshot (Python renders a `None` value as the string
"None"). -/
def infoSummary (info : CollectedInfo) (a : AnalysisDump) : String :=
  let category := pythonTitle ((a.category.replace "ProductCategory." "").replace "_" " ")
  let colors := String.intercalate ", " (a.dominant_colors.take 3)
  "🎯 **Target Audience:** " ++ info.target_audience.getD "None" ++ "\n" ++
  "🎨 **Brand Tone:** " ++ info.brand_tone.getD "None" ++ "\n" ++
  "💬 **Key Message:** " ++ info.key_message.getD "None" ++ "\n" ++
  "📂 **Product Category:** " ++ category ++ "\n" ++
  "🌈 **Main Colors:** " ++ colors

/-- The outcome of the chat layer's image-upload attempt, as observed inside
`_handle_image_upload`: `exc` for an exception raised in its `try` block
(file handling, or the core call itself raising), `fail` for a core
`upload_image` envelope with `success == False` (carrying
`result.get("error", "Unknown error")`), `ok` for a successful envelope with
the dumped analysis. -/
inductive UploadOutcome where
  | exc (e : String)
  | fail (e : String)
  | ok (a : AnalysisDump)
deriving DecidableEq, Repr

/-- The structured fields the conversation layer reads off a
`process_response` classification (`brand_tone`, `demographics`,
`tone_keywords`, `call_to_action`; absent keys are `none`). -/
structure ChatProcessed where
  brand_tone : Option String
  demographics : Option String
  tone_keywords : Option (List String)
  call_to_action : Option String
deriving DecidableEq, Repr

/-- One user turn together with the outcomes of every external collaborator
the turn's handlers may consult: the fresh session identifier and stored
image path for an upload, the upload outcome, the classifier outcome for a
question answer, and the `submit_answers` outcome when generation is
started. -/
structure TurnInput where
  message : String
  hasImage : Bool
  newSessionId : String
  imagePath : String
  upload : UploadOutcome
  classify : Except String ChatProcessed
  submit : Except String Unit
deriving Repr

/-- Embedding of `_generate_first_question`: category-keyed compliment and first question
with generic fallbacks, stores the `target_audience` question descriptor and
sets `questions_asked := 1`. -/
def generateFirstQuestion (c : ConvRecord) (a : AnalysisDump) :
    ConvRecord × MsgResponse :=
  let category := a.category
  let categoryMsg := (categoryMessages.lookup category).getD defaultCategoryMessage
  let question := (firstQuestions.lookup category).getD defaultFirstQuestion
  let c₁ := { c with
    current_question := some { qtype := "target_audience", question := question,
                               category_context := category }
    questions_asked := 1 }
  let qualityComment :=
    if a.image_quality_score_pct > 80 then " The image quality looks great for ad creation!" else ""
  let message := "Perfect! " ++ categoryMsg ++ qualityComment ++ "\n\n" ++ question ++
    "\n\n💡 The more specific you are, the better I can tailor your ads!"
  (c₁, { message := message, stage := .asking_questions })

/-- Embedding of `_handle_image_upload`: start a core session, move to `analyzing_image`,
then branch on the upload outcome.  On an exception or a failure envelope the
*response* declares stage `waiting_for_image` but the stored stage is left at
`analyzing_image`; on success the analysis snapshot is stored and the first
question asked. -/
def handleImageUpload (c : ConvRecord) (inp : TurnInput) : ConvRecord × MsgResponse :=
  let c₀ := { c with session_id := some inp.newSessionId, stage := ConvStage.analyzing_image }
  match inp.upload with
  | .exc e =>
    let r : MsgResponse :=
      { message := "I\x27m sorry, I couldn\x27t process your image. Please make sure it\x27s a valid image file " ++
          "(JPEG, PNG, or WebP) under 10MB and try again."
        stage := .waiting_for_image
        error := some e }
    (addHistory c₀ "agent" r.message, r)
  | .fail e =>
    let r : MsgResponse :=
      { message := "I\x27m sorry, I had trouble analyzing your image: " ++ e ++
          ". Could you try uploading a different image?"
        stage := .waiting_for_image }
    (addHistory c₀ "agent" r.message, r)
  | .ok a =>
    let c₁ := { c₀ with product_image_path := some inp.imagePath, image_uploaded := true,
                        image_analysis := some a, stage := ConvStage.asking_questions }
    let (c₂, r) := generateFirstQuestion c₁ a
    (addHistory c₂ "agent" r.message, r)

/-- Embedding of `_process_user_response`: merge the classified answer into
`collected_info` according to the current question's type. -/
def storeProcessed (c : ConvRecord) (qtype response : String) (p : ChatProcessed) :
    ConvRecord :=
  if qtype = "target_audience" then
    { c with collected_info :=
      { c.collected_info with
          target_audience := some response
          demographics := match p.demographics with
            | some d => some d
            | none => c.collected_info.demographics } }
  else if qtype = "brand_tone" then
    { c with collected_info :=
      { c.collected_info with
          brand_tone := some (p.brand_tone.getD "professional")
          tone_keywords := match p.tone_keywords with
            | some k => some k
            | none => c.collected_info.tone_keywords } }
  else if qtype = "key_message" then
    { c with collected_info :=
      { c.collected_info with
          key_message := some response
          call_to_action := match p.call_to_action with
            | some cta => some cta
            | none => c.collected_info.call_to_action } }
  else c

/-- Embedding of `_generate_next_question`: picks the brand-tone question for index 2 and
the key-message question for index 3, stores the descriptor, and bumps
`questions_asked`.  Reading the category of a missing analysis raises, as
does building the response when neither branch bound a question (Python's
`NameError`, raised after `questions_asked` was already bumped); both raises
are caught by `process_message`'s blanket handler, which answers with
`processErrorMessage` at the stored stage. -/
def generateNextQuestion (c : ConvRecord) : ConvRecord × ProcessOut :=
  let questionNum := c.questions_asked + 1
  match c.image_analysis with
  | none =>
    (addHistory c "agent" processErrorMessage,
     .res { message := processErrorMessage, stage := c.stage,
            error := some "image_analysis is missing" })
  | some a =>
    let category := a.category
    let audience := c.collected_info.target_audience.getD "your customers"
    if questionNum = 2 then
      let qb := toneQuestionFor category audience
      let c₁ := { c with
        current_question := some { qtype := "brand_tone", question := qb.question,
                                   category_context := category }
        questions_asked := questionNum }
      let msg := qb.message ++ "\n\n💡 " ++ qb.tip
      (addHistory c₁ "agent" msg, .res { message := msg, stage := .asking_questions })
    else if questionNum = 3 then
      let qb := messageQuestionFor category audience
      let c₁ := { c with
        current_question := some { qtype := "key_message", question := qb.question,
                                   category_context := category }
        questions_asked := questionNum }
      let msg := qb.message ++ "\n\n💡 " ++ qb.tip
      (addHistory c₁ "agent" msg, .res { message := msg, stage := .asking_questions })
    else
      let c₁ := { c with questions_asked := questionNum }
      (addHistory c₁ "agent" processErrorMessage,
       .res { message := processErrorMessage, stage := c₁.stage,
              error := some "name \x27question\x27 is not defined" })

/-- Embedding of `_handle_question_response`: needs an active question, classifies the
answer (a raising classifier reaches the blanket handler with the record
unmutated), merges it, then either asks the next question or — once the
ceiling is reached — moves to `ready_for_generation` and summarises (a
missing analysis makes the summary raise after the stage was already
advanced). -/
def handleQuestionResponse (c : ConvRecord) (inp : TurnInput) : ConvRecord × ProcessOut :=
  match c.current_question with
  | none => (c, .errorOnly "No active question found")
  | some cq =>
    match inp.classify with
    | .error e =>
      (addHistory c "agent" processErrorMessage,
       .res { message := processErrorMessage, stage := c.stage, error := some e })
    | .ok p =>
      let c₁ := storeProcessed c cq.qtype inp.message p
      if c₁.questions_asked < c₁.max_questions then
        generateNextQuestion c₁
      else
        let c₂ := { c₁ with stage := ConvStage.ready_for_generation,
                            ready_for_generation := true }
        match c₂.image_analysis with
        | none =>
          (addHistory c₂ "agent" processErrorMessage,
           .res { message := processErrorMessage, stage := c₂.stage,
                  error := some "image_analysis is missing" })
        | some a =>
          let summary := infoSummary c₂.collected_info a
          let msg := "Perfect! I have everything I need to create your ads. Here\x27s what I understand:\n\n" ++
            summary ++ "\n\n" ++
            "I\x27m ready to generate 4 unique social media ad variations for you! " ++
            "This will take about 30-60 seconds.\n\n" ++
            "Should I start creating your ads now? 🎨"
          (addHistory c₂ "agent" msg, .res { message := msg, stage := .ready_for_generation })

/-- Embedding of `_start_ad_generation`: move to `generating`, submit the synthetic answer
list to the core session (outcome `inp.submit`), and on success schedule the
background task (modelled by raising `bgPending`) and acknowledge; a raising
submission falls back to `ready_for_generation` with an error response. -/
def startAdGeneration (c : ConvRecord) (inp : TurnInput) : ConvRecord × ProcessOut :=
  let c₁ := { c with stage := ConvStage.generating }
  match inp.submit with
  | .ok _ =>
    let c₂ := { c₁ with bgPending := true }
    let msg := "🎨 Perfect! I\x27m now generating your 4 social media ad variations...\n\n" ++
      "⏱️ This usually takes 30-60 seconds\n" ++
      "🎯 Creating: Lifestyle, Product Hero, Benefit-Focused, and Social Proof styles\n" ++
      "📱 Format: 9:16 vertical for Instagram/TikTok Stories\n\n" ++
      "I\x27ll let you know as soon as they\x27re ready! ✨"
    (addHistory c₂ "agent" msg,
     .res { message := msg, stage := .generating, generation_started := true })
  | .error e =>
    let c₂ := { c₁ with stage := ConvStage.ready_for_generation }
    let msg := "I\x27m sorry, I encountered an issue starting the ad generation. Could you try again?"
    (addHistory c₂ "agent" msg,
     .res { message := msg, stage := .ready_for_generation, error := some e })

/-- Embedding of `_handle_modification_request`. -/
def handleModificationRequest (c : ConvRecord) : ConvRecord × ProcessOut :=
  let msg := "What would you like to modify? I can adjust your target audience, brand tone, or key message."
  (addHistory c "agent" msg, .res { message := msg, stage := .ready_for_generation })

/-- Embedding of `_handle_generation_request`: keyword detection on the lowercased message;
affirmative words start generation, negative words enter the modification
sub-flow, anything else re-prompts. -/
def handleGenerationRequest (c : ConvRecord) (inp : TurnInput) : ConvRecord × ProcessOut :=
  let m := inp.message.toLower
  if strContains m "yes" || strContains m "generate" || strContains m "start" ||
      strContains m "create" then
    startAdGeneration c inp
  else if strContains m "no" || strContains m "modify" || strContains m "change" then
    handleModificationRequest c
  else
    let msg := "Should I go ahead and generate your 4 ad variations now? Just say \x27yes\x27 to start, or \x27modify\x27 if you\x27d like to change any information."
    (addHistory c "agent" msg, .res { message := msg, stage := .ready_for_generation })

/-- Embedding of `_generate_ads_background`: the scheduled task resolves with the core
agent's `generate_ads` outcome (`Except.error` when that call raised).  A
raising call moves the conversation to `generation_failed`; a returned
envelope moves it to `completed` exactly when the envelope's `success` flag
is set — which the core agent sets whenever the batch call returned, even
for a batch with zero successful variations — and otherwise leaves the
record (and in particular its `generating` stage) unchanged. -/
def generateAdsBackground (c : ConvRecord) (res : Except String AgentResponse) :
    ConvRecord :=
  let c₀ := { c with bgPending := false }
  match res with
  | .error e =>
    { c₀ with stage := ConvStage.generation_failed, generation_error := some e }
  | .ok env =>
    if env.success then
      { c₀ with stage := ConvStage.completed, generation_result := env.result }
    else c₀

/-- Embedding of `_present_results`: builds the results message; mutates nothing but the
history. -/
def presentResults (c : ConvRecord) (r : AdGenerationResult) : ConvRecord × ProcessOut :=
  let adLines := String.join ((r.ads.enumFrom 1).map fun p =>
    "**" ++ toString p.1 ++ ". " ++ variationDisplayName p.2.variation_type ++ " Ad** - " ++
    toString p.2.generation_time_seconds ++ "s\n")
  let msg := "🎉 Amazing! Your 4 social media ads are ready! Generated in " ++
    toString r.total_generation_time_seconds ++ " seconds.\n\n" ++ adLines ++
    "\n📱 All ads are optimized for Instagram/TikTok Stories (9:16 format)\n" ++
    "💾 Ready for download and immediate use!\n\n" ++
    "Would you like to:\n" ++
    "• Create ads for another product? 🔄\n" ++
    "• Ask about ad customization? ✏️\n" ++
    "• Get tips for using these ads? 💡"
  (addHistory c "agent" msg, .res { message := msg, stage := .completed })

/-- Embedding of `_handle_completion_chat` (dispatched at stored stage `completed`): with a
stored result, present it; without one, the `completed` sub-branch calls
`_present_results`, whose read of the missing result raises into the blanket
handler (the `generation_failed` and still-generating sub-branches are dead
under the dispatch on `completed`, but embedded faithfully). -/
def handleCompletionChat (c : ConvRecord) : ConvRecord × ProcessOut :=
  match c.generation_result with
  | some r => presentResults c r
  | none =>
    if c.stage = ConvStage.completed then
      (addHistory c "agent" processErrorMessage,
       .res { message := processErrorMessage, stage := c.stage,
              error := some "generation_result" })
    else if c.stage = ConvStage.generation_failed then
      let e := c.generation_error.getD "Unknown error"
      let msg := "I\x27m sorry, the ad generation failed: " ++ e ++ "\n\nWould you like to try again?"
      let c₁ := { c with stage := ConvStage.ready_for_generation }
      (addHistory c₁ "agent" msg, .res { message := msg, stage := .ready_for_generation })
    else
      let msg := "🎨 Your ads are still being generated... Please wait a moment longer!"
      (addHistory c "agent" msg, .res { message := msg, stage := .generating })

/-- Embedding of `_handle_greeting_response`: advance to `waiting_for_image`. -/
def handleGreetingResponse (c : ConvRecord) : ConvRecord × ProcessOut :=
  let c₁ := { c with stage := ConvStage.waiting_for_image }
  let msg := "Great! Please upload your product image and I\x27ll analyze it to create the perfect ads for you. 📸"
  (addHistory c₁ "agent" msg, .res { message := msg, stage := .waiting_for_image })

/-- Embedding of `_handle_waiting_for_image`: re-prompt, no record change beyond history. -/
def handleWaitingForImage (c : ConvRecord) : ConvRecord × ProcessOut :=
  let msg := "I\x27m ready for your product image! Please upload it and I\x27ll get started with the analysis. 📸✨"
  (addHistory c "agent" msg, .res { message := msg, stage := .waiting_for_image })

/-- Embedding of `_handle_image_analysis_complete`: returns a fixed dict without touching
the record or the history. -/
def handleImageAnalysisComplete (c : ConvRecord) : ConvRecord × ProcessOut :=
  (c, .res { message := "Analysis complete!", stage := .asking_questions })

/-- Embedding of `_handle_generation_status`: progress message, history only. -/
def handleGenerationStatus (c : ConvRecord) : ConvRecord × ProcessOut :=
  let msg := "🎨 Still working on your ads... Almost there! ⏱️"
  (addHistory c "agent" msg, .res { message := msg, stage := .generating })

/-- Embedding of `_handle_unknown_stage`: reached exactly for the stored stage
`generation_failed`, the one stage `process_message`'s dispatch does not
name; the stored record keeps that stage. -/
def handleUnknownStage (c : ConvRecord) : ConvRecord × ProcessOut :=
  let msg := "I\x27m not sure how to help with that right now. Would you like to start over with a new product image?"
  (addHistory c "agent" msg, .res { message := msg, stage := .waiting_for_image })

/-- The body of `process_message` on a found conversation: append the user
message, route an attached image to the upload handler whenever no image has
been accepted yet (taking priority over the stage dispatch), otherwise
dispatch on the stored stage. -/
def processMessageConv (c : ConvRecord) (inp : TurnInput) : ConvRecord × ProcessOut :=
  let c₀ := addHistory c "user" inp.message
  if inp.hasImage && !c₀.image_uploaded then
    let p := handleImageUpload c₀ inp
    (p.1, .res p.2)
  else
    match c₀.stage with
    | .greeting => handleGreetingResponse c₀
    | .waiting_for_image => handleWaitingForImage c₀
    | .analyzing_image => handleImageAnalysisComplete c₀
    | .asking_questions => handleQuestionResponse c₀ inp
    | .ready_for_generation => handleGenerationRequest c₀ inp
    | .generating => handleGenerationStatus c₀
    | .completed => handleCompletionChat c₀
    | .generation_failed => handleUnknownStage c₀

/-- Embedding of `process_message` (store level): unknown identifiers get the bare
not-found error dict before anything is written. -/
def processMessage (store : ConvStore) (cid : String) (inp : TurnInput) :
    ConvStore × ProcessOut :=
  match store cid with
  | none => (store, .errorOnly "Conversation not found. Please start a new conversation.")
  | some c =>
    let (c₁, out) := processMessageConv c inp
    (store.insert cid c₁, out)

/-- Embedding of `get_conversation_history`: an unknown identifier yields the empty list
(the function has no error channel); the store is never written. -/
def getConversationHistory (store : ConvStore) (cid : String) : List HistoryEntry :=
  match store cid with
  | none => []
  | some c => c.conversation_history

/-- The read-only descriptor of `get_conversation_status`. -/
structure ConvStatus where
  conversation_id : String
  stage : ConvStage
  questions_asked : Nat
  ready_for_generation : Bool
  image_uploaded : Bool
  generation_complete : Bool
  created_at : Nat
deriving DecidableEq, Repr

/-- A status poll either reports not-found or the descriptor. -/
inductive ConvStatusOut where
  | err (e : String)
  | ok (s : ConvStatus)
deriving DecidableEq, Repr

/-- The in-place reconciliation at the top of `get_conversation_status`: a
conversation still marked `generating` that already carries a generation
result is advanced to `completed`. -/
def statusReconcile (c : ConvRecord) : ConvRecord :=
  if c.stage = ConvStage.generating then
    match c.generation_result with
    | some _ => { c with stage := ConvStage.completed }
    | none => c
  else c

/-- Embedding of `get_conversation_status`: not-found error dict for unknown identifiers;
otherwise reconcile (an in-place mutation of the stored record) and report
the descriptor. -/
def getConversationStatus (store : ConvStore) (cid : String) :
    ConvStore × ConvStatusOut :=
  match store cid with
  | none => (store, .err "Conversation not found")
  | some c =>
    let c₁ := statusReconcile c
    (store.insert cid c₁,
     .ok { conversation_id := cid
           stage := c₁.stage
           questions_asked := c₁.questions_asked
           ready_for_generation := c₁.ready_for_generation
           image_uploaded := c₁.image_uploaded
           generation_complete := c₁.generation_result.isSome
           created_at := c₁.created_at })

/-- The small-step relation on one conversation record: a user turn
(`process_message` on the found record, with arbitrary message and
collaborator outcomes), the resolution of a scheduled background generation
task, or a status poll's in-place reconciliation.  `get_conversation_history`
reads without writing and needs no step. -/
inductive ConvStep : ConvRecord → ConvRecord → Prop where
  | turn {c : ConvRecord} (inp : TurnInput) : ConvStep c (processMessageConv c inp).1
  | background {c : ConvRecord} (res : Except String AgentResponse)
      (h : c.bgPending = true) : ConvStep c (generateAdsBackground c res)
  | poll {c : ConvRecord} : ConvStep c (statusReconcile c)

/-- Conversation records reachable from the record installed by
`start_conversation`. -/
inductive ConvReachable : ConvRecord → Prop where
  | start (cid : String) (t : Nat) : ConvReachable (initialConv cid t)
  | step {c c' : ConvRecord} : ConvReachable c → ConvStep c c' → ConvReachable c'

/-- The inductive invariant of the conversation state machine. -/
structure Inv (c : ConvRecord) : Prop where
  maxq : c.max_questions = 3
  qa_le : c.questions_asked ≤ 3
  asking_pos : c.stage = ConvStage.asking_questions → 1 ≤ c.questions_asked
  uploaded_qa : c.image_uploaded = false → c.questions_asked = 0
  cq_type : ∀ q, c.current_question = some q →
    (c.questions_asked = 1 → q.qtype = "target_audience") ∧
    (c.questions_asked = 2 → q.qtype = "brand_tone") ∧
    (c.questions_asked = 3 → q.qtype = "key_message")
  result_completed : ∀ r, c.generation_result = some r → c.stage = ConvStage.completed
  pending_generating : c.bgPending = true →
    c.stage = ConvStage.generating ∧ c.generation_result = none
  uploaded_stage : c.image_uploaded = false →
    c.stage = ConvStage.greeting ∨ c.stage = ConvStage.waiting_for_image ∨
      c.stage = ConvStage.analyzing_image

theorem inv_congr {c c' : ConvRecord} (h : Inv c)
    (h1 : c'.max_questions = c.max_questions)
    (h2 : c'.questions_asked = c.questions_asked)
    (h3 : c'.stage = c.stage)
    (h4 : c'.image_uploaded = c.image_uploaded)
    (h5 : c'.current_question = c.current_question)
    (h6 : c'.generation_result = c.generation_result)
    (h7 : c'.bgPending = c.bgPending) : Inv c' := by
  refine ⟨?_, ?_, ?_, ?_, ?_, ?_, ?_, ?_⟩
  · rw [h1]; exact h.maxq
  · rw [h2]; exact h.qa_le
  · rw [h3, h2]; exact h.asking_pos
  · rw [h4, h2]; exact h.uploaded_qa
  · rw [h5, h2]; exact h.cq_type
  · rw [h6, h3]; exact h.result_completed
  · rw [h7, h3, h6]; exact h.pending_generating
  · rw [h4, h3]; exact h.uploaded_stage

theorem inv_addHistory {c : ConvRecord} (role msg : String) (h : Inv c) :
    Inv (addHistory c role msg) :=
  inv_congr h rfl rfl rfl rfl rfl rfl rfl

theorem storeProcessed_fields (c : ConvRecord) (qt r : String) (p : ChatProcessed) :
    (storeProcessed c qt r p).max_questions = c.max_questions ∧
    (storeProcessed c qt r p).questions_asked = c.questions_asked ∧
    (storeProcessed c qt r p).stage = c.stage ∧
    (storeProcessed c qt r p).image_uploaded = c.image_uploaded ∧
    (storeProcessed c qt r p).current_question = c.current_question ∧
    (storeProcessed c qt r p).generation_result = c.generation_result ∧
    (storeProcessed c qt r p).bgPending = c.bgPending ∧
    (storeProcessed c qt r p).image_analysis = c.image_analysis := by
  unfold storeProcessed
  split_ifs <;> exact ⟨rfl, rfl, rfl, rfl, rfl, rfl, rfl, rfl⟩

theorem inv_storeProcessed {c : ConvRecord} (qt r : String) (p : ChatProcessed)
    (h : Inv c) : Inv (storeProcessed c qt r p) := by
  obtain ⟨h1, h2, h3, h4, h5, h6, h7, -⟩ := storeProcessed_fields c qt r p
  exact inv_congr h h1 h2 h3 h4 h5 h6 h7

theorem inv_initial (cid : String) (t : Nat) : Inv (initialConv cid t) := by
  refine ⟨rfl, by simp [initialConv], ?_, fun _ => rfl, ?_, ?_, ?_, ?_⟩ <;>
    simp [initialConv]

theorem stage_no_result {c : ConvRecord} (h : Inv c)
    (hst : c.stage ≠ ConvStage.completed) : c.generation_result = none := by
  cases hres : c.generation_result with
  | none => rfl
  | some r => exact absurd (h.result_completed r hres) hst

theorem stage_no_pending {c : ConvRecord} (h : Inv c)
    (hst : c.stage ≠ ConvStage.generating) : c.bgPending = false := by
  cases hbg : c.bgPending with
  | false => rfl
  | true => exact absurd (h.pending_generating hbg).1 hst

theorem uploaded_true {c : ConvRecord} (h : Inv c)
    (h1 : c.stage ≠ ConvStage.greeting) (h2 : c.stage ≠ ConvStage.waiting_for_image)
    (h3 : c.stage ≠ ConvStage.analyzing_image) : c.image_uploaded = true := by
  cases hu : c.image_uploaded with
  | true => rfl
  | false =>
    rcases h.uploaded_stage hu with h' | h' | h'
    · exact absurd h' h1
    · exact absurd h' h2
    · exact absurd h' h3

theorem preserve_handleWaitingForImage {c : ConvRecord} (h : Inv c) :
    Inv (handleWaitingForImage c).1 ∧
      c.questions_asked ≤ (handleWaitingForImage c).1.questions_asked :=
  ⟨inv_addHistory _ _ h, le_refl _⟩

theorem preserve_handleImageAnalysisComplete {c : ConvRecord} (h : Inv c) :
    Inv (handleImageAnalysisComplete c).1 ∧
      c.questions_asked ≤ (handleImageAnalysisComplete c).1.questions_asked :=
  ⟨h, le_refl _⟩

theorem preserve_handleGenerationStatus {c : ConvRecord} (h : Inv c) :
    Inv (handleGenerationStatus c).1 ∧
      c.questions_asked ≤ (handleGenerationStatus c).1.questions_asked :=
  ⟨inv_addHistory _ _ h, le_refl _⟩

theorem preserve_handleModificationRequest {c : ConvRecord} (h : Inv c) :
    Inv (handleModificationRequest c).1 ∧
      c.questions_asked ≤ (handleModificationRequest c).1.questions_asked :=
  ⟨inv_addHistory _ _ h, le_refl _⟩

theorem preserve_handleUnknownStage {c : ConvRecord} (h : Inv c) :
    Inv (handleUnknownStage c).1 ∧
      c.questions_asked ≤ (handleUnknownStage c).1.questions_asked :=
  ⟨inv_addHistory _ _ h, le_refl _⟩

theorem preserve_handleCompletionChat {c : ConvRecord} (h : Inv c)
    (hst : c.stage = ConvStage.completed) :
    Inv (handleCompletionChat c).1 ∧
      c.questions_asked ≤ (handleCompletionChat c).1.questions_asked := by
  unfold handleCompletionChat
  cases hres : c.generation_result with
  | some r => exact ⟨inv_addHistory _ _ h, le_refl _⟩
  | none =>
    rw [if_pos hst]
    exact ⟨inv_addHistory _ _ h, le_refl _⟩

theorem preserve_handleGreetingResponse {c : ConvRecord} (h : Inv c)
    (hst : c.stage = ConvStage.greeting) :
    Inv (handleGreetingResponse c).1 ∧
      c.questions_asked ≤ (handleGreetingResponse c).1.questions_asked := by
  have hres : c.generation_result = none := stage_no_result h (by simp [hst])
  have hbg : c.bgPending = false := stage_no_pending h (by simp [hst])
  refine ⟨⟨h.maxq, h.qa_le, ?_, ?_, h.cq_type, ?_, ?_, ?_⟩, le_refl _⟩
  · intro hcon
    simp [handleGreetingResponse, addHistory] at hcon
  · intro hu
    exact h.uploaded_qa hu
  · intro r hr
    simp [handleGreetingResponse, addHistory, hres] at hr
  · intro hp
    simp [handleGreetingResponse, addHistory, hbg] at hp
  · intro _
    exact Or.inr (Or.inl rfl)

theorem preserve_handleImageUpload {c : ConvRecord} (h : Inv c)
    (hup : c.image_uploaded = false) (inp : TurnInput) :
    Inv (handleImageUpload c inp).1 ∧
      c.questions_asked ≤ (handleImageUpload c inp).1.questions_asked := by
  have hstages := h.uploaded_stage hup
  have hnc : c.stage ≠ ConvStage.completed := by
    rcases hstages with h' | h' | h' <;> simp [h']
  have hng : c.stage ≠ ConvStage.generating := by
    rcases hstages with h' | h' | h' <;> simp [h']
  have hres : c.generation_result = none := stage_no_result h hnc
  have hbg : c.bgPending = false := stage_no_pending h hng
  have hqa0 : c.questions_asked = 0 := h.uploaded_qa hup
  unfold handleImageUpload
  cases hout : inp.upload with
  | exc e =>
    dsimp only [addHistory]
    refine ⟨⟨h.maxq, h.qa_le, ?_, fun _ => hqa0, h.cq_type, ?_, ?_, ?_⟩, le_refl _⟩
    · intro hcon
      cases hcon
    · intro r hr
      rw [hres] at hr
      cases hr
    · intro hp
      rw [hbg] at hp
      cases hp
    · intro _
      exact Or.inr (Or.inr rfl)
  | fail e =>
    dsimp only [addHistory]
    refine ⟨⟨h.maxq, h.qa_le, ?_, fun _ => hqa0, h.cq_type, ?_, ?_, ?_⟩, le_refl _⟩
    · intro hcon
      cases hcon
    · intro r hr
      rw [hres] at hr
      cases hr
    · intro hp
      rw [hbg] at hp
      cases hp
    · intro _
      exact Or.inr (Or.inr rfl)
  | ok a =>
    dsimp only [generateFirstQuestion, addHistory]
    refine ⟨⟨h.maxq, ?_, fun _ => le_refl 1, ?_, ?_, ?_, ?_, ?_⟩, ?_⟩
    · show (1 : Nat) ≤ 3
      omega
    · intro hcon
      cases hcon
    · intro q hq
      injection hq with hq
      subst hq
      refine ⟨fun _ => rfl, fun h2 => ?_, fun h3 => ?_⟩
      · exact absurd (show (1 : Nat) = 2 from h2) (by omega)
      · exact absurd (show (1 : Nat) = 3 from h3) (by omega)
    · intro r hr
      rw [hres] at hr
      cases hr
    · intro hp
      rw [hbg] at hp
      cases hp
    · intro hcon
      cases hcon
    · show c.questions_asked ≤ 1
      omega

theorem preserve_generateNextQuestion {c : ConvRecord} (h : Inv c)
    (hst : c.stage = ConvStage.asking_questions)
    (hpos : 1 ≤ c.questions_asked) (hlt : c.questions_asked < 3) :
    Inv (generateNextQuestion c).1 ∧
      c.questions_asked ≤ (generateNextQuestion c).1.questions_asked := by
  have hres : c.generation_result = none := stage_no_result h (by simp [hst])
  have hbg : c.bgPending = false := stage_no_pending h (by simp [hst])
  have hup : c.image_uploaded = true :=
    uploaded_true h (by simp [hst]) (by simp [hst]) (by simp [hst])
  unfold generateNextQuestion
  cases hana : c.image_analysis with
  | none => exact ⟨inv_addHistory _ _ h, le_refl _⟩
  | some a =>
    dsimp only
    by_cases h2 : c.questions_asked + 1 = 2
    · rw [if_pos h2]
      dsimp only [addHistory]
      refine ⟨⟨h.maxq, ?_, ?_, ?_, ?_, ?_, ?_, ?_⟩, ?_⟩
      · show c.questions_asked + 1 ≤ 3
        omega
      · intro _
        show 1 ≤ c.questions_asked + 1
        omega
      · intro hcon
        have hcon' : c.image_uploaded = false := hcon
        rw [hup] at hcon'
        cases hcon'
      · intro q hq
        injection hq with hq
        subst hq
        refine ⟨fun h1 => ?_, fun _ => rfl, fun h3 => ?_⟩
        · exact absurd (show c.questions_asked + 1 = 1 from h1) (by omega)
        · exact absurd (show c.questions_asked + 1 = 3 from h3) (by omega)
      · intro r hr
        have hr' : c.generation_result = some r := hr
        rw [hres] at hr'
        cases hr'
      · intro hp
        have hp' : c.bgPending = true := hp
        rw [hbg] at hp'
        cases hp'
      · intro hcon
        have hcon' : c.image_uploaded = false := hcon
        rw [hup] at hcon'
        cases hcon'
      · show c.questions_asked ≤ c.questions_asked + 1
        omega
    · by_cases h3 : c.questions_asked + 1 = 3
      · rw [if_neg h2, if_pos h3]
        dsimp only [addHistory]
        refine ⟨⟨h.maxq, ?_, ?_, ?_, ?_, ?_, ?_, ?_⟩, ?_⟩
        · show c.questions_asked + 1 ≤ 3
          omega
        · intro _
          show 1 ≤ c.questions_asked + 1
          omega
        · intro hcon
          have hcon' : c.image_uploaded = false := hcon
          rw [hup] at hcon'
          cases hcon'
        · intro q hq
          injection hq with hq
          subst hq
          refine ⟨fun h1 => ?_, fun hmid => ?_, fun _ => rfl⟩
          · exact absurd (show c.questions_asked + 1 = 1 from h1) (by omega)
          · exact absurd (show c.questions_asked + 1 = 2 from hmid) (by omega)
        · intro r hr
          have hr' : c.generation_result = some r := hr
          rw [hres] at hr'
          cases hr'
        · intro hp
          have hp' : c.bgPending = true := hp
          rw [hbg] at hp'
          cases hp'
        · intro hcon
          have hcon' : c.image_uploaded = false := hcon
          rw [hup] at hcon'
          cases hcon'
        · show c.questions_asked ≤ c.questions_asked + 1
          omega
      · exfalso
        omega

theorem preserve_handleQuestionResponse {c : ConvRecord} (h : Inv c)
    (hst : c.stage = ConvStage.asking_questions) (inp : TurnInput) :
    Inv (handleQuestionResponse c inp).1 ∧
      c.questions_asked ≤ (handleQuestionResponse c inp).1.questions_asked := by
  have hpos : 1 ≤ c.questions_asked := h.asking_pos hst
  have hres : c.generation_result = none := stage_no_result h (by simp [hst])
  have hbg : c.bgPending = false := stage_no_pending h (by simp [hst])
  have hup : c.image_uploaded = true :=
    uploaded_true h (by simp [hst]) (by simp [hst]) (by simp [hst])
  unfold handleQuestionResponse
  cases hcq : c.current_question with
  | none => exact ⟨h, le_refl _⟩
  | some cq =>
    cases hcl : inp.classify with
    | error e => exact ⟨inv_addHistory _ _ h, le_refl _⟩
    | ok p =>
      dsimp only
      set c₁ := storeProcessed c cq.qtype inp.message p with hc₁
      have f1 : c₁.max_questions = c.max_questions :=
        (storeProcessed_fields c cq.qtype inp.message p).1
      have f2 : c₁.questions_asked = c.questions_asked :=
        (storeProcessed_fields c cq.qtype inp.message p).2.1
      have f3 : c₁.stage = c.stage :=
        (storeProcessed_fields c cq.qtype inp.message p).2.2.1
      have f4 : c₁.image_uploaded = c.image_uploaded :=
        (storeProcessed_fields c cq.qtype inp.message p).2.2.2.1
      have f6 : c₁.generation_result = c.generation_result :=
        (storeProcessed_fields c cq.qtype inp.message p).2.2.2.2.2.1
      have f7 : c₁.bgPending = c.bgPending :=
        (storeProcessed_fields c cq.qtype inp.message p).2.2.2.2.2.2.1
      have h₁ : Inv c₁ := inv_storeProcessed _ _ _ h
      have hmax : c.max_questions = 3 := h.maxq
      by_cases hlt : c₁.questions_asked < c₁.max_questions
      · rw [if_pos hlt]
        have hnext := preserve_generateNextQuestion h₁ (f3.trans hst)
          (by rw [f2]; exact hpos) (by omega)
        exact ⟨hnext.1, by rw [← f2]; exact hnext.2⟩
      · rw [if_neg hlt]
        have hinv₂ : Inv { c₁ with stage := ConvStage.ready_for_generation, ready_for_generation := true } := by
          refine ⟨?_, h₁.qa_le, ?_, ?_, h₁.cq_type, ?_, ?_, ?_⟩
          · show c₁.max_questions = 3
            rw [f1, h.maxq]
          · intro hcon
            cases hcon
          · intro hu
            have hu' : c₁.image_uploaded = false := hu
            rw [f4, hup] at hu'
            cases hu'
          · intro r hr
            have hr' : c₁.generation_result = some r := hr
            rw [f6, hres] at hr'
            cases hr'
          · intro hp
            have hp' : c₁.bgPending = true := hp
            rw [f7, hbg] at hp'
            cases hp'
          · intro hu
            have hu' : c₁.image_uploaded = false := hu
            rw [f4, hup] at hu'
            cases hu'
        cases hana : ({ c₁ with stage := ConvStage.ready_for_generation, ready_for_generation := true } : ConvRecord).image_analysis with
        | none =>
          refine ⟨inv_addHistory _ _ (inv_congr hinv₂ rfl rfl rfl rfl rfl rfl rfl), ?_⟩
          show c.questions_asked ≤ c₁.questions_asked
          omega
        | some a =>
          refine ⟨inv_addHistory _ _ (inv_congr hinv₂ rfl rfl rfl rfl rfl rfl rfl), ?_⟩
          show c.questions_asked ≤ c₁.questions_asked
          omega

theorem preserve_startAdGeneration {c : ConvRecord} (h : Inv c)
    (hst : c.stage = ConvStage.ready_for_generation) (inp : TurnInput) :
    Inv (startAdGeneration c inp).1 ∧
      c.questions_asked ≤ (startAdGeneration c inp).1.questions_asked := by
  have hres : c.generation_result = none := stage_no_result h (by simp [hst])
  have hbg : c.bgPending = false := stage_no_pending h (by simp [hst])
  have hup : c.image_uploaded = true :=
    uploaded_true h (by simp [hst]) (by simp [hst]) (by simp [hst])
  unfold startAdGeneration
  cases hsub : inp.submit with
  | ok u =>
    dsimp only [addHistory]
    refine ⟨⟨h.maxq, h.qa_le, ?_, ?_, h.cq_type, ?_, ?_, ?_⟩, le_refl _⟩
    · intro hcon
      cases hcon
    · intro hu
      have hu' : c.image_uploaded = false := hu
      rw [hup] at hu'
      cases hu'
    · intro r hr
      have hr' : c.generation_result = some r := hr
      rw [hres] at hr'
      cases hr'
    · intro _
      exact ⟨rfl, hres⟩
    · intro hu
      have hu' : c.image_uploaded = false := hu
      rw [hup] at hu'
      cases hu'
  | error e =>
    dsimp only [addHistory]
    refine ⟨⟨h.maxq, h.qa_le, ?_, ?_, h.cq_type, ?_, ?_, ?_⟩, le_refl _⟩
    · intro hcon
      cases hcon
    · intro hu
      have hu' : c.image_uploaded = false := hu
      rw [hup] at hu'
      cases hu'
    · intro r hr
      have hr' : c.generation_result = some r := hr
      rw [hres] at hr'
      cases hr'
    · intro hp
      have hp' : c.bgPending = true := hp
      rw [hbg] at hp'
      cases hp'
    · intro hu
      have hu' : c.image_uploaded = false := hu
      rw [hup] at hu'
      cases hu'

theorem preserve_handleGenerationRequest {c : ConvRecord} (h : Inv c)
    (hst : c.stage = ConvStage.ready_for_generation) (inp : TurnInput) :
    Inv (handleGenerationRequest c inp).1 ∧
      c.questions_asked ≤ (handleGenerationRequest c inp).1.questions_asked := by
  unfold handleGenerationRequest
  dsimp only
  split_ifs with hy hn
  · exact preserve_startAdGeneration h hst inp
  · exact preserve_handleModificationRequest h
  · exact ⟨inv_addHistory _ _ h, le_refl _⟩

theorem preserve_background {c : ConvRecord} (h : Inv c) (hbg : c.bgPending = true)
    (res : Except String AgentResponse) :
    Inv (generateAdsBackground c res) ∧
      c.questions_asked ≤ (generateAdsBackground c res).questions_asked := by
  obtain ⟨hstage, hres⟩ := h.pending_generating hbg
  have hup : c.image_uploaded = true :=
    uploaded_true h (by simp [hstage]) (by simp [hstage]) (by simp [hstage])
  unfold generateAdsBackground
  cases res with
  | error e =>
    dsimp only
    refine ⟨⟨h.maxq, h.qa_le, ?_, ?_, h.cq_type, ?_, ?_, ?_⟩, le_refl _⟩
    · intro hcon
      cases hcon
    · intro hu
      have hu' : c.image_uploaded = false := hu
      rw [hup] at hu'
      cases hu'
    · intro r hr
      have hr' : c.generation_result = some r := hr
      rw [hres] at hr'
      cases hr'
    · intro hp
      cases hp
    · intro hu
      have hu' : c.image_uploaded = false := hu
      rw [hup] at hu'
      cases hu'
  | ok env =>
    dsimp only
    by_cases henv : env.success = true
    · rw [if_pos henv]
      refine ⟨⟨h.maxq, h.qa_le, ?_, ?_, h.cq_type, ?_, ?_, ?_⟩, le_refl _⟩
      · intro hcon
        cases hcon
      · intro hu
        have hu' : c.image_uploaded = false := hu
        rw [hup] at hu'
        cases hu'
      · intro r _
        rfl
      · intro hp
        cases hp
      · intro hu
        have hu' : c.image_uploaded = false := hu
        rw [hup] at hu'
        cases hu'
    · rw [if_neg henv]
      refine ⟨⟨h.maxq, h.qa_le, ?_, ?_, h.cq_type, ?_, ?_, ?_⟩, le_refl _⟩
      · intro hcon
        have hcon' : c.stage = ConvStage.asking_questions := hcon
        rw [hstage] at hcon'
        cases hcon'
      · intro hu
        have hu' : c.image_uploaded = false := hu
        rw [hup] at hu'
        cases hu'
      · intro r hr
        have hr' : c.generation_result = some r := hr
        rw [hres] at hr'
        cases hr'
      · intro hp
        cases hp
      · intro hu
        have hu' : c.image_uploaded = false := hu
        rw [hup] at hu'
        cases hu'

theorem statusReconcile_eq_self {c : ConvRecord} (h : Inv c) : statusReconcile c = c := by
  unfold statusReconcile
  split_ifs with hst
  · cases hres : c.generation_result with
    | none => rfl
    | some r => exact absurd (h.result_completed r hres) (by rw [hst]; simp)
  · rfl

theorem preserve_turn {c : ConvRecord} (h : Inv c) (inp : TurnInput) :
    Inv (processMessageConv c inp).1 ∧
      c.questions_asked ≤ (processMessageConv c inp).1.questions_asked := by
  unfold processMessageConv
  dsimp only
  have h₀ : Inv (addHistory c "user" inp.message) := inv_addHistory _ _ h
  by_cases himg : (inp.hasImage && !(addHistory c "user" inp.message).image_uploaded) = true
  · rw [if_pos himg]
    simp only [Bool.and_eq_true, Bool.not_eq_true'] at himg
    exact preserve_handleImageUpload h₀ himg.2 inp
  · rw [if_neg himg]
    cases hstage : (addHistory c "user" inp.message).stage with
    | greeting => exact preserve_handleGreetingResponse h₀ hstage
    | waiting_for_image => exact preserve_handleWaitingForImage h₀
    | analyzing_image => exact preserve_handleImageAnalysisComplete h₀
    | asking_questions => exact preserve_handleQuestionResponse h₀ hstage inp
    | ready_for_generation => exact preserve_handleGenerationRequest h₀ hstage inp
    | generating => exact preserve_handleGenerationStatus h₀
    | completed => exact preserve_handleCompletionChat h₀ hstage
    | generation_failed => exact preserve_handleUnknownStage h₀

theorem step_preserves {c c' : ConvRecord} (h : Inv c) (hs : ConvStep c c') :
    Inv c' ∧ c.questions_asked ≤ c'.questions_asked := by
  cases hs with
  | turn inp => exact preserve_turn h inp
  | background res hbg => exact preserve_background h hbg res
  | poll => rw [statusReconcile_eq_self h]; exact ⟨h, le_refl _⟩

theorem inv_reachable {c : ConvRecord} (hr : ConvReachable c) : Inv c := by
  induction hr with
  | start cid t => exact inv_initial cid t
  | step hr hs ih => exact (step_preserves ih hs).1

@[simp] theorem generateSingleAd_ok (v : AdVariationType) (s e : Nat) (u p : String) :
    generateSingleAd v (.ok s e u p) =
      some { variation_type := v, image_url := u, prompt_used := p,
             generation_time_seconds := e - s } := rfl

@[simp] theorem generateSingleAd_err (v : AdVariationType) (m : String) :
    generateSingleAd v (.err m) = none := rfl

@[simp] theorem isOk_ok (s e : Nat) (u p : String) :
    (VariationOutcome.ok s e u p).isOk = true := rfl

@[simp] theorem isOk_err (m : String) : (VariationOutcome.err m).isOk = false := rfl

theorem length_filterMap_generateSingleAd (vs : List AdVariationType)
    (rs : List VariationOutcome) (h : vs.length = rs.length) :
    ((vs.zip rs).filterMap fun p => generateSingleAd p.1 p.2).length =
      rs.countP VariationOutcome.isOk := by
  induction vs generalizing rs with
  | nil =>
    cases rs with
    | nil => simp
    | cons r rs => simp at h
  | cons v vs ih =>
    cases rs with
    | nil => simp at h
    | cons r rs =>
      have h' : vs.length = rs.length := by simpa using h
      cases r with
      | ok s e u p =>
        simp [List.countP_cons, ih rs h']
      | err m =>
        simp [List.countP_cons, ih rs h']

theorem countP_isOk_add_not (rs : List VariationOutcome) :
    rs.countP VariationOutcome.isOk + rs.countP (fun r => !r.isOk) = rs.length := by
  induction rs with
  | nil => simp
  | cons r rs ih =>
    cases r <;> simp [List.countP_cons] <;> omega

theorem mem_batch_ads (vs : List AdVariationType) (rs : List VariationOutcome)
    (ad : GeneratedAd)
    (had : ad ∈ (vs.zip rs).filterMap fun p => generateSingleAd p.1 p.2) :
    ∃ s e u p, VariationOutcome.ok s e u p ∈ rs ∧
      ad.generation_time_seconds = e - s := by
  rw [List.mem_filterMap] at had
  obtain ⟨⟨v, r⟩, hmem, hf⟩ := had
  cases r with
  | err m => simp [generateSingleAd] at hf
  | ok s e u p =>
    refine ⟨s, e, u, p, (List.of_mem_zip hmem).2, ?_⟩
    simp only [generateSingleAd, Option.some.injEq] at hf
    rw [← hf]

/-- C1.  In a batch of four variation requests, `_generate_ads_internal`
reports success exactly when at least one variation produced an ad, and with
zero successes it returns an empty ads list together with the fixed,
non-empty aggregate error message. -/
theorem batch_success_iff_any_ad (requestId : String) (batchStart batchEnd : Nat)
    (runs : List VariationOutcome) (h4 : runs.length = 4) :
    ((generateAdsInternal requestId batchStart batchEnd runs).success = true ↔
      0 < runs.countP VariationOutcome.isOk) ∧
    (runs.countP VariationOutcome.isOk = 0 →
      (generateAdsInternal requestId batchStart batchEnd runs).ads = [] ∧
      (generateAdsInternal requestId batchStart batchEnd runs).error_message =
        some "Failed to generate any ads" ∧
      "Failed to generate any ads" ≠ "") := by
  have hvs : adVariations.length = runs.length := by simp [adVariations, h4]
  have hlen := length_filterMap_generateSingleAd adVariations runs hvs
  unfold generateAdsInternal
  dsimp only
  constructor
  · rw [decide_eq_true_eq, hlen]
  · intro h0
    have hz : ((adVariations.zip runs).filterMap fun p =>
        generateSingleAd p.1 p.2).length = 0 := by rw [hlen, h0]
    refine ⟨List.length_eq_zero.mp hz, ?_, by decide⟩
    rw [if_neg (by omega)]

/-- C1 witness: a concrete batch with one success and three failures is
reported successful; a concrete batch with four failures yields no ads and
the aggregate error message. -/
theorem batch_success_iff_any_ad_witness :
    ((generateAdsInternal "r1" 0 10
        [.ok 1 4 "file://a.png" "p1", .err "x", .err "y", .err "z"]).success = true ↔
      0 < ([VariationOutcome.ok 1 4 "file://a.png" "p1", .err "x", .err "y",
        .err "z"].countP VariationOutcome.isOk)) ∧
    (([VariationOutcome.err "a", .err "b", .err "c", .err "d"].countP
        VariationOutcome.isOk = 0) →
      (generateAdsInternal "r2" 0 10
        [VariationOutcome.err "a", .err "b", .err "c", .err "d"]).ads = [] ∧
      (generateAdsInternal "r2" 0 10
        [VariationOutcome.err "a", .err "b", .err "c", .err "d"]).error_message =
          some "Failed to generate any ads" ∧
      "Failed to generate any ads" ≠ "") :=
  ⟨(batch_success_iff_any_ad "r1" 0 10
      [.ok 1 4 "file://a.png" "p1", .err "x", .err "y", .err "z"] rfl).1,
   (batch_success_iff_any_ad "r2" 0 10
      [.err "a", .err "b", .err "c", .err "d"] rfl).2⟩

/-- C4.  In a batch of four variation requests with exactly k failures
(1 ≤ k ≤ 3), the result holds exactly 4−k ads and reports success, and the
total elapsed wall-clock time bounds every successful variation's elapsed
time (each task starts after the fan-out instant and finishes before the
fan-in instant). -/
theorem batch_with_k_failures (requestId : String) (batchStart batchEnd : Nat)
    (runs : List VariationOutcome) (k : Nat) (h4 : runs.length = 4)
    (hfail : runs.countP (fun r => !r.isOk) = k) (hk1 : 1 ≤ k) (hk3 : k ≤ 3)
    (htime : ∀ s e u p, VariationOutcome.ok s e u p ∈ runs →
      batchStart ≤ s ∧ s ≤ e ∧ e ≤ batchEnd) :
    (generateAdsInternal requestId batchStart batchEnd runs).ads.length = 4 - k ∧
    (generateAdsInternal requestId batchStart batchEnd runs).success = true ∧
    ∀ ad ∈ (generateAdsInternal requestId batchStart batchEnd runs).ads,
      ad.generation_time_seconds ≤
        (generateAdsInternal requestId batchStart batchEnd runs).total_generation_time_seconds := by
  have hvs : adVariations.length = runs.length := by simp [adVariations, h4]
  have hlen := length_filterMap_generateSingleAd adVariations runs hvs
  have hsum := countP_isOk_add_not runs
  refine ⟨?_, ?_, ?_⟩
  · show ((adVariations.zip runs).filterMap fun p => generateSingleAd p.1 p.2).length = 4 - k
    omega
  · show decide (((adVariations.zip runs).filterMap fun p =>
      generateSingleAd p.1 p.2).length > 0) = true
    rw [decide_eq_true_eq]
    omega
  · intro ad had
    have had' : ad ∈ (adVariations.zip runs).filterMap fun p =>
      generateSingleAd p.1 p.2 := had
    obtain ⟨s, e, u, p, hmem, hgen⟩ := mem_batch_ads adVariations runs ad had'
    obtain ⟨hb1, hb2, hb3⟩ := htime s e u p hmem
    show ad.generation_time_seconds ≤ batchEnd - batchStart
    rw [hgen]
    omega

/-- C4 witness: a concrete batch with exactly one failure yields three ads,
success, and per-ad times bounded by the total. -/
theorem batch_with_k_failures_witness :
    (generateAdsInternal "r3" 2 12
      [.ok 2 5 "file://a.png" "p1", .err "boom", .ok 3 9 "file://b.png" "p2",
       .ok 4 11 "file://c.png" "p3"]).ads.length = 4 - 1 ∧
    (generateAdsInternal "r3" 2 12
      [.ok 2 5 "file://a.png" "p1", .err "boom", .ok 3 9 "file://b.png" "p2",
       .ok 4 11 "file://c.png" "p3"]).success = true ∧
    ∀ ad ∈ (generateAdsInternal "r3" 2 12
      [.ok 2 5 "file://a.png" "p1", .err "boom", .ok 3 9 "file://b.png" "p2",
       .ok 4 11 "file://c.png" "p3"]).ads,
      ad.generation_time_seconds ≤
        (generateAdsInternal "r3" 2 12
          [.ok 2 5 "file://a.png" "p1", .err "boom", .ok 3 9 "file://b.png" "p2",
           .ok 4 11 "file://c.png" "p3"]).total_generation_time_seconds :=
  by
  apply batch_with_k_failures "r3" 2 12
    [.ok 2 5 "file://a.png" "p1", .err "boom", .ok 3 9 "file://b.png" "p2",
     .ok 4 11 "file://c.png" "p3"] 1 rfl rfl (by decide) (by decide)
  intro s e u p hmem
  simp only [List.mem_cons, List.not_mem_nil, or_false] at hmem
  rcases hmem with h | h | h | h
  · injection h with h1 h2 h3 h4
    omega
  · simp at h
  · injection h with h1 h2 h3 h4
    omega
  · injection h with h1 h2 h3 h4
    omega

/-- C3.  A stage-gated session operation called outside its stage raises an
invalid-state `ValueError` whose message names the expected stage, and the
session store — hence every field of the stored session record — is returned
unchanged (the gate fires before any mutation). -/
theorem stage_gate_invalid_state (store : SessionStore) (sid : String)
    (s : SessionRecord) (hs : store sid = some s) (imagePath : String)
    (analyzer : Except String ImageAnalysis) (questionGen : Except String (List String))
    (answers : List UserResponse) (classify : UserResponse → Except String ProcessedFields)
    (batch : Except String AdGenerationResult) :
    (s.stage ≠ SessionStage.upload →
      uploadImage store sid imagePath analyzer questionGen =
        (store, Except.error ("Session " ++ sid ++ " is not in upload stage"))) ∧
    (s.stage ≠ SessionStage.questions →
      submitAnswers store sid answers classify =
        (store, Except.error ("Session " ++ sid ++ " is not in questions stage"))) ∧
    (s.stage ≠ SessionStage.generation →
      generateAds store sid batch =
        (store, Except.error ("Session " ++ sid ++ " is not in generation stage"))) := by
  refine ⟨fun hni => ?_, fun hni => ?_, fun hni => ?_⟩
  · unfold uploadImage
    rw [hs]
    dsimp only
    rw [if_pos hni]
  · unfold submitAnswers
    rw [hs]
    dsimp only
    rw [if_pos hni]
  · unfold generateAds
    rw [hs]
    dsimp only
    rw [if_pos hni]

/-- Concrete store for the C3 witness: one session already completed. -/
def gateStore : SessionStore :=
  fun k => if k = "s1" then some { freshSession 0 with stage := SessionStage.completed } else none

/-- C3 witness: on a completed session, all three stage-gated operations
reject with the stage-naming error and leave the store untouched. -/
theorem stage_gate_invalid_state_witness :
    (uploadImage gateStore "s1" "p.png" (Except.error "o") (Except.error "o") =
      (gateStore, Except.error ("Session " ++ "s1" ++ " is not in upload stage"))) ∧
    (submitAnswers gateStore "s1" [] (fun _ => Except.error "o") =
      (gateStore, Except.error ("Session " ++ "s1" ++ " is not in questions stage"))) ∧
    (generateAds gateStore "s1" (Except.error "o") =
      (gateStore, Except.error ("Session " ++ "s1" ++ " is not in generation stage"))) := by
  have h := stage_gate_invalid_state gateStore "s1"
    { freshSession 0 with stage := SessionStage.completed } (by simp [gateStore])
    "p.png" (Except.error "o") (Except.error "o") [] (fun _ => Except.error "o")
    (Except.error "o")
  exact ⟨h.1 (by decide), h.2.1 (by decide), h.2.2 (by decide)⟩

/-- C10.  `start_session` and `start_conversation` install a fresh
initial-stage record under the caller-supplied identifier unconditionally:
when a record already exists there, it is overwritten and all its state
discarded, while the operations return their normal success payloads with no
error channel. -/
theorem start_overwrites_existing (sstore : SessionStore) (sid : String)
    (sOld : SessionRecord) (t : Nat) (_hs : sstore sid = some sOld)
    (cstore : ConvStore) (cid : String) (cOld : ConvRecord) (t' : Nat)
    (_hc : cstore cid = some cOld) :
    (startSession sstore sid t).1 sid = some (freshSession t) ∧
    (startSession sstore sid t).2 = sid ∧
    (startConversation cstore cid t').1 cid = some (initialConv cid t') ∧
    (startConversation cstore cid t').2 =
      (cid, { message := greetingMessage, stage := ConvStage.waiting_for_image,
              error := none, generation_started := false }) := by
  refine ⟨?_, rfl, ?_, rfl⟩
  · simp [startSession, SessionStore.insert]
  · simp [startConversation, ConvStore.insert]

/-- C10 witness: overwriting a populated session and conversation at concrete
identifiers. -/
theorem start_overwrites_existing_witness :
    (startSession gateStore "s1" 7).1 "s1" = some (freshSession 7) ∧
    (startSession gateStore "s1" 7).2 = "s1" ∧
    (startConversation (fun k => if k = "c1" then some (initialConv "c1" 0) else none) "c1" 9).1 "c1" =
      some (initialConv "c1" 9) ∧
    (startConversation (fun k => if k = "c1" then some (initialConv "c1" 0) else none) "c1" 9).2 =
      ("c1", { message := greetingMessage, stage := ConvStage.waiting_for_image,
               error := none, generation_started := false }) :=
  start_overwrites_existing gateStore "s1"
    { freshSession 0 with stage := SessionStage.completed } 7 (by simp [gateStore])
    (fun k => if k = "c1" then some (initialConv "c1" 0) else none) "c1"
    (initialConv "c1" 0) 9 (by simp)

/-- C9 counterexample.  The claim asserts that *every* conversation operation
on an unknown identifier returns a "not found" error; but
`get_conversation_history` returns the plain empty list — its return type
(faithful to the code, which returns `[]`) carries no error at all, so at the
concrete unknown identifier "missing" on the empty store the claim fails. -/
theorem history_unknown_id_returns_empty_not_error :
    getConversationHistory (fun _ => none) "missing" = [] := rfl

/-- C9 (amended).  On an identifier never issued: `process_message` and the
status poll return their "not found" error dicts, the history read returns
the empty list, and none of the three writes the store — in particular no
record is created for the unknown identifier. -/
theorem unknown_conversation_id_ops (store : ConvStore) (cid : String)
    (inp : TurnInput) (h : store cid = none) :
    processMessage store cid inp =
      (store, ProcessOut.errorOnly "Conversation not found. Please start a new conversation.") ∧
    getConversationHistory store cid = [] ∧
    getConversationStatus store cid = (store, ConvStatusOut.err "Conversation not found") := by
  refine ⟨?_, ?_, ?_⟩
  · unfold processMessage
    rw [h]
  · unfold getConversationHistory
    rw [h]
  · unfold getConversationStatus
    rw [h]

/-- A throwaway turn input for witnesses. -/
def anyTurn : TurnInput :=
  { message := "hello", hasImage := false, newSessionId := "s", imagePath := "p",
    upload := .exc "unused", classify := Except.error "unused",
    submit := Except.error "unused" }

/-- C9 witness: the three operations at the concrete unknown identifier. -/
theorem unknown_conversation_id_ops_witness :
    processMessage (fun _ => none) "missing" anyTurn =
      ((fun _ => none : ConvStore),
        ProcessOut.errorOnly "Conversation not found. Please start a new conversation.") ∧
    getConversationHistory (fun _ => none) "missing" = [] ∧
    getConversationStatus (fun _ => none) "missing" =
      ((fun _ => none : ConvStore), ConvStatusOut.err "Conversation not found") :=
  unknown_conversation_id_ops (fun _ => none) "missing" anyTurn rfl

/-- C6.  Status reads are pure: `get_session_status` never writes the session
store, and on every reachable conversation record a status poll returns the
conversation store unchanged (its reconciliation branch only fires on a
record that is `generating` while already holding a result, which the
reachability invariant rules out). -/
theorem status_reads_never_mutate (sstore : SessionStore) (sid : String)
    (cstore : ConvStore) (cid : String) (c : ConvRecord)
    (hc : cstore cid = some c) (hr : ConvReachable c) :
    (getSessionStatus sstore sid).1 = sstore ∧
    (getConversationStatus cstore cid).1 = cstore := by
  constructor
  · unfold getSessionStatus
    cases sstore sid <;> rfl
  · unfold getConversationStatus
    rw [hc]
    dsimp only
    rw [statusReconcile_eq_self (inv_reachable hr)]
    funext k
    unfold ConvStore.insert
    by_cases hk : k = cid
    · rw [if_pos hk, hk, hc]
    · rw [if_neg hk]

/-- C6 witness: at a freshly started conversation. -/
theorem status_reads_never_mutate_witness :
    (getSessionStatus (fun _ => none) "s9").1 = (fun _ => none : SessionStore) ∧
    (getConversationStatus
        (fun k => if k = "c9" then some (initialConv "c9" 0) else none) "c9").1 =
      (fun k => if k = "c9" then some (initialConv "c9" 0) else none : ConvStore) :=
  status_reads_never_mutate (fun _ => none) "s9"
    (fun k => if k = "c9" then some (initialConv "c9" 0) else none) "c9"
    (initialConv "c9" 0) (by simp) (ConvReachable.start "c9" 0)

/-- C7.  Across any turn, background resolution or poll, `questions_asked`
never decreases; on every reachable record in the `asking_questions` stage it
is at most 3; and the pending question's type is determined by the index:
1 is the target-audience question, 2 the brand-tone question, 3 the
key-message question. -/
theorem questions_asked_monotone_bounded (c c' : ConvRecord)
    (hr : ConvReachable c) (hs : ConvStep c c') :
    c.questions_asked ≤ c'.questions_asked ∧
    (c.stage = ConvStage.asking_questions → c.questions_asked ≤ 3) ∧
    (∀ q, c.current_question = some q →
      (c.questions_asked = 1 → q.qtype = "target_audience") ∧
      (c.questions_asked = 2 → q.qtype = "brand_tone") ∧
      (c.questions_asked = 3 → q.qtype = "key_message")) := by
  have hinv := inv_reachable hr
  exact ⟨(step_preserves hinv hs).2, fun _ => hinv.qa_le, hinv.cq_type⟩

/-- C7 witness: the initial record stepped by one throwaway turn. -/
theorem questions_asked_monotone_bounded_witness :
    (initialConv "c7" 0).questions_asked ≤
      (processMessageConv (initialConv "c7" 0) anyTurn).1.questions_asked :=
  (questions_asked_monotone_bounded (initialConv "c7" 0)
    (processMessageConv (initialConv "c7" 0) anyTurn).1
    (ConvReachable.start "c7" 0) (ConvStep.turn anyTurn)).1

/-- A batch in which all four variation tasks raised. -/
def cexRuns : List VariationOutcome :=
  [.err "timeout", .err "timeout", .err "timeout", .err "timeout"]

/-- A session ready for generation (analysis and one answered question). -/
def cexSession : SessionRecord :=
  { created_at := 0
    stage := .generation
    image_analysis := some
      { category := .fashion, dominant_colors := ["#102030"],
        product_features := ["lightweight"], background_type := "plain",
        image_quality_score_pct := 90, suggested_questions := [] }
    product_image_path := some "uploads/p.png"
    questions := []
    responses := [{ question_id := "target_audience",
                    question_text := "Who is your target customer?",
                    response := "students", processed_response := none }]
    generation_result := none }

/-- Session store holding `cexSession`. -/
def cexSessionStore : SessionStore :=
  fun k => if k = "sess1" then some cexSession else none

/-- A conversation whose background generation task is in flight. -/
def cexConv : ConvRecord :=
  { initialConv "conv1" 0 with
    stage := ConvStage.generating
    session_id := some "sess1"
    image_uploaded := true
    bgPending := true }

/-- C2 counterexample.  A batch with zero successful variations produces an
`AdGenerationResult` with `success := false` and no ads, yet the core agent's
`generate_ads` wraps it in a `success: True` envelope (the call returned
without raising), so the background task moves the conversation to
`completed` — not to `generation_failed` as the claim requires. -/
theorem zero_success_batch_reaches_completed :
    (generateAdsInternal "rq" 3 9 cexRuns).success = false ∧
    (generateAdsInternal "rq" 3 9 cexRuns).ads = [] ∧
    (generateAdsBackground cexConv
        (generateAds cexSessionStore "sess1" (adGeneratorGenerateAds "rq" 3 9 cexRuns)).2).stage =
      ConvStage.completed ∧
    ConvStage.completed ≠ ConvStage.generation_failed :=
  ⟨rfl, rfl, rfl, by decide⟩

/-- C2 (amended).  Once the background task resolves on a `generating`
conversation: a raising core call yields stage `generation_failed`; a
returned envelope with `success: True` — which the core agent produces
whenever the batch call returns, including for a batch with zero successful
variations — yields stage `completed`; and a returned envelope with
`success: False` leaves the record unchanged apart from the resolved task, so
the stored stage remains `generating`.  No stage outside these three arises
from `generating`, and a status poll then reports exactly the stored
stage. -/
theorem generating_background_transitions (c : ConvRecord)
    (res : Except String AgentResponse) (hst : c.stage = ConvStage.generating) :
    (∀ e, res = Except.error e →
      (generateAdsBackground c res).stage = ConvStage.generation_failed) ∧
    (∀ env, res = Except.ok env → env.success = true →
      (generateAdsBackground c res).stage = ConvStage.completed) ∧
    (∀ env, res = Except.ok env → env.success = false →
      generateAdsBackground c res = { c with bgPending := false }) ∧
    ((generateAdsBackground c res).stage = ConvStage.generation_failed ∨
     (generateAdsBackground c res).stage = ConvStage.completed ∨
     (generateAdsBackground c res).stage = ConvStage.generating) := by
  unfold generateAdsBackground
  cases res with
  | error e =>
    dsimp only
    refine ⟨?_, ?_, ?_, Or.inl rfl⟩
    · intro _ _
      rfl
    · intro env h
      exact nomatch h
    · intro env h
      exact nomatch h
  | ok env =>
    dsimp only
    by_cases henv : env.success = true
    · rw [if_pos henv]
      refine ⟨?_, ?_, ?_, Or.inr (Or.inl rfl)⟩
      · intro e h
        exact nomatch h
      · intro env' _ _
        rfl
      · intro env' h hfalse
        injection h with h
        subst h
        rw [henv] at hfalse
        cases hfalse
    · rw [if_neg henv]
      refine ⟨?_, ?_, ?_, Or.inr (Or.inr hst)⟩
      · intro e h
        exact nomatch h
      · intro env' h htrue
        injection h with h
        subst h
        exact absurd htrue henv
      · intro env' _ _
        rfl

/-- C2 witness: a raising background call on the in-flight conversation lands
in `generation_failed`. -/
theorem generating_background_transitions_witness :
    (generateAdsBackground cexConv (Except.error "boom")).stage =
      ConvStage.generation_failed :=
  (generating_background_transitions cexConv (Except.error "boom") rfl).1 "boom" rfl

/-- A conversation waiting for its image. -/
def c5Conv : ConvRecord :=
  { initialConv "conv5" 0 with stage := ConvStage.waiting_for_image }

/-- A turn carrying an image whose analysis returns an error envelope. -/
def c5Turn : TurnInput :=
  { message := "here is my product", hasImage := true, newSessionId := "sess5",
    imagePath := "uploads/p5.png",
    upload := .fail "Invalid image file: broken header",
    classify := Except.error "unused", submit := Except.error "unused" }

/-- C5.  When the analyzer fails during an image upload, the failure *is*
surfaced as an agent message (appended to the history) and the response dict
declares stage `waiting_for_image` — but the stored conversation stage stays
`analyzing_image`: the handler never writes the declared stage back, so the
stored stage does not revert as the claim (and the code's own response
contract) requires.  A retry still works only because `process_message`
routes any attached image to the upload handler before the stage dispatch. -/
theorem analyzer_failure_keeps_stored_stage_analyzing :
    ((processMessageConv c5Conv c5Turn).1).stage = ConvStage.analyzing_image ∧
    ((processMessageConv c5Conv c5Turn).2).stageOf = some ConvStage.waiting_for_image ∧
    ((processMessageConv c5Conv c5Turn).2).messageOf = some
      ("I\x27m sorry, I had trouble analyzing your image: Invalid image file: broken header. Could you try uploading a different image?") ∧
    ((processMessageConv c5Conv c5Turn).1).conversation_history.getLast? = some
      { role := "agent",
        message := "I\x27m sorry, I had trouble analyzing your image: Invalid image file: broken header. Could you try uploading a different image?" } ∧
    ConvStage.analyzing_image ≠ ConvStage.waiting_for_image :=
  ⟨rfl, rfl, rfl, rfl, by decide⟩

/-- C8.  Every category-keyed table in the conversation layer
(`category_messages`, `first_questions`, `tone_questions`,
`message_questions`) is keyed by the qualified enum name
("ProductCategory.FASHION", ...) while the stored analysis snapshot carries
the bare enum value ("fashion", ...), so for every analyzable category each
lookup misses and the generic fallback is selected. -/
theorem category_tables_never_hit (a : ImageAnalysis) (audience : String) :
    (ImageAnalysis.dump a).category = a.category.value ∧
    categoryMessages.lookup (ImageAnalysis.dump a).category = none ∧
    firstQuestions.lookup (ImageAnalysis.dump a).category = none ∧
    (toneQuestions audience).lookup (ImageAnalysis.dump a).category = none ∧
    (messageQuestions audience).lookup (ImageAnalysis.dump a).category = none ∧
    (categoryMessages.lookup (ImageAnalysis.dump a).category).getD defaultCategoryMessage =
      defaultCategoryMessage ∧
    (firstQuestions.lookup (ImageAnalysis.dump a).category).getD defaultFirstQuestion =
      defaultFirstQuestion ∧
    toneQuestionFor (ImageAnalysis.dump a).category audience = defaultToneBundle audience ∧
    messageQuestionFor (ImageAnalysis.dump a).category audience =
      defaultMessageBundle audience := by
  rcases a with ⟨cat, cols, feats, bg, q, sq⟩
  cases cat <;>
    exact ⟨rfl, rfl, rfl, rfl, rfl, rfl, rfl, rfl, rfl⟩

end SMAG
